import Mathlib

/-
Shallow embedding of the OpenAI-compatible Cloudflare Worker
(`src`: default fetch dispatcher, handleChatCompletions,
handleEmbeddings, handleModels).

JavaScript values are modelled by `JSValue` (JSON values plus
`undefined`), truthiness by `JSValue.truthy`, property access by
`JSValue.prop` (which yields `undefined` on non-objects; a property
access or destructuring on `null`/`undefined` throws, which the
handlers model explicitly).  The Workers AI binding `env.AI.run` is an
abstract `Backend`; every handler returns, besides the thrown-or-ok
response, the list of backend calls it performed, so "the backend is
never invoked" is the trace being `[]`.
-/

/-- A JavaScript value as far as this worker manipulates them:
JSON values plus `undefined`.  Numbers are modelled as integers
(no claim involves fractional values or NaN). -/
inductive JSValue where
  | undefined
  | null
  | bool (b : Bool)
  | num (n : Int)
  | str (s : String)
  | arr (elems : List JSValue)
  | obj (fields : List (String × JSValue))

/-- JavaScript truthiness of a value. -/
def JSValue.truthy : JSValue → Bool
  | .undefined => false
  | .null => false
  | .bool b => b
  | .num n => n != 0
  | .str s => s != ""
  | .arr _ => true
  | .obj _ => true

/-- First binding of a key in an object's field list (`undefined` when
absent, like JS property lookup on a plain object). -/
def lookupField : List (String × JSValue) → String → JSValue
  | [], _ => .undefined
  | (k, v) :: rest, key => if k = key then v else lookupField rest key

/-- `v.key` on a value that is not `null`/`undefined`: fields of an
object, `undefined` on any primitive or array (the worker only reads
`response`, `data`, and body fields, none of which exist on
primitive prototypes). -/
def JSValue.prop : JSValue → String → JSValue
  | .obj fields, key => lookupField fields key
  | _, _ => .undefined

/-- Destructuring default: `const { key = dflt } = v` takes the
default exactly when the property is `undefined`. -/
def JSValue.propOr (v : JSValue) (key : String) (dflt : JSValue) : JSValue :=
  match v.prop key with
  | .undefined => dflt
  | x => x

/-- `Array.isArray`. -/
def JSValue.isArray : JSValue → Bool
  | .arr _ => true
  | _ => false

/-- Whether a property access or destructuring on the value throws a
TypeError (`null` and `undefined` only). -/
def JSValue.isNullish : JSValue → Bool
  | .null => true
  | .undefined => true
  | _ => false

/-- Indexing `v[i]` on an array (`undefined` out of range or on
non-arrays). -/
def JSValue.index : JSValue → Nat → JSValue
  | .arr xs, i => xs.getD i .undefined
  | _, _ => .undefined

/-- One invocation of the Workers AI binding: `env.AI.run(model, options)`. -/
structure AICall where
  model : JSValue
  options : JSValue

/-- The abstract inference backend: `env.AI.run` either resolves with a
value or rejects with an error message. -/
def Backend : Type := JSValue → JSValue → Except String JSValue

/-- An inbound HTTP request, with `body` the outcome of
`await request.json()` (`.error msg` models a rejected JSON parse). -/
structure Request where
  method : String
  path : String
  body : Except String JSValue

/-- An outbound HTTP response; the body is kept as a `JSValue` rather
than its serialization (`none` is the literal `null` body of the
pre-flight response). -/
structure Response where
  status : Nat
  headers : List (String × String)
  body : Option JSValue

/-- The CORS header triple attached to every response. -/
def corsHeaders : List (String × String) :=
  [("Access-Control-Allow-Origin", "*"),
   ("Access-Control-Allow-Methods", "GET, POST, PUT, DELETE, OPTIONS"),
   ("Access-Control-Allow-Headers", "Content-Type, Authorization")]

/-- Headers of every JSON response: content type plus the CORS triple. -/
def jsonHeaders : List (String × String) :=
  ("Content-Type", "application/json") :: corsHeaders

/-- `new Response(JSON.stringify(body), { status, headers })`. -/
def jsonResponse (status : Nat) (body : JSValue) : Response :=
  { status := status, headers := jsonHeaders, body := some body }

/-- Message of the TypeError thrown by destructuring or property access
on `null`/`undefined` (its exact text is JS-engine dependent and no
claim depends on it). -/
def typeErrorMsg : String := "Cannot read properties of null or undefined"

/-- Default chat model (`model = '@cf/meta/llama-3.3-70b-instruct-fp8-fast'`). -/
def chatDefaultModel : JSValue := .str "@cf/meta/llama-3.3-70b-instruct-fp8-fast"

/-- Default embedding model (`model = '@cf/baai/bge-large-en-v1.5'`). -/
def embedDefaultModel : JSValue := .str "@cf/baai/bge-large-en-v1.5"

/-- The rest pattern `...otherParams` of a destructuring: every own
field of the body except the explicitly named ones (empty on
primitives). -/
def restParams (body : JSValue) (named : List String) : List (String × JSValue) :=
  match body with
  | .obj fields => fields.filter (fun kv => !(named.contains kv.1))
  | _ => []

/-- The options object the chat handler passes to `env.AI.run`:
`{ messages, stream, ...otherParams }`. -/
def chatOptions (body : JSValue) : JSValue :=
  .obj (("messages", body.prop "messages") ::
        ("stream", body.propOr "stream" (.bool false)) ::
        restParams body ["messages", "model", "stream"])

/-- `response.response || response`: the wrapped reply text when it is
truthy, else the raw backend result. -/
def normalizeReply (r : JSValue) : JSValue :=
  if (r.prop "response").truthy then r.prop "response" else r

/-- `response.data || response` for one embedding result. -/
def normalizeEmbedding (r : JSValue) : JSValue :=
  if (r.prop "data").truthy then r.prop "data" else r

/-- The OpenAI-shaped chat completion body built on success (the two
`Date.now()` reads are modelled as a single instant `now`). -/
def chatSuccessBody (now : Nat) (model content : JSValue) : JSValue :=
  .obj [("id", .str ("chatcmpl-" ++ toString now)),
        ("object", .str "chat.completion"),
        ("created", .num (Int.ofNat (now / 1000))),
        ("model", model),
        ("choices", .arr [.obj
          [("index", .num 0),
           ("message", .obj [("role", .str "assistant"), ("content", content)]),
           ("finish_reason", .str "stop")]]),
        ("usage", .obj [("prompt_tokens", .num 0),
                        ("completion_tokens", .num 0),
                        ("total_tokens", .num 0)])]

/-- The 500 envelope a handler builds when the backend call (or the
property access on its result) throws inside the handler's try block. -/
def handlerErrorBody (what msg : String) : JSValue :=
  .obj [("error", .str what), ("message", .str msg)]

/-- `handleChatCompletions`.  Result: `.error msg` models an exception
escaping the handler (rejected body parse, or destructuring a `null`
body), to be caught by the dispatcher; the second component is the
trace of backend calls. -/
def handleChatCompletions (ai : Backend) (now : Nat) (req : Request) :
    Except String Response × List AICall :=
  if req.method ≠ "POST" then
    (.ok (jsonResponse 405 (.obj [("error", .str "Method not allowed")])), [])
  else
    match req.body with
    | .error e => (.error e, [])
    | .ok body =>
      if body.isNullish then
        (.error typeErrorMsg, [])
      else
        let messages := body.prop "messages"
        let model := body.propOr "model" chatDefaultModel
        if !messages.truthy || !messages.isArray then
          (.ok (jsonResponse 400 (.obj [("error", .str "Messages array is required")])), [])
        else
          match ai model (chatOptions body) with
          | .error e =>
            (.ok (jsonResponse 500 (handlerErrorBody "Failed to generate completion" e)),
             [⟨model, chatOptions body⟩])
          | .ok r =>
            if r.isNullish then
              (.ok (jsonResponse 500
                 (handlerErrorBody "Failed to generate completion" typeErrorMsg)),
               [⟨model, chatOptions body⟩])
            else
              (.ok (jsonResponse 200 (chatSuccessBody now model (normalizeReply r))),
               [⟨model, chatOptions body⟩])

/-- `Array.isArray(input) ? input : [input]`. -/
def normalizeInput : JSValue → List JSValue
  | .arr xs => xs
  | v => [v]

/-- One entry of the embedding response's `data` sequence. -/
def embedEntry (emb : JSValue) (i : Nat) : JSValue :=
  .obj [("object", .str "embedding"),
        ("embedding", emb),
        ("index", .num (Int.ofNat i))]

/-- The sequential per-element loop of `handleEmbeddings`, starting at
index `i`: one backend call per element, aborting on the first
rejection (or on a `null` result, whose `.data` access throws). -/
def embedLoop (ai : Backend) (model : JSValue) :
    List JSValue → Nat → Except String (List JSValue) × List AICall
  | [], _ => (.ok [], [])
  | x :: rest, i =>
    match ai model (.obj [("text", x)]) with
    | .error e => (.error e, [⟨model, .obj [("text", x)]⟩])
    | .ok r =>
      if r.isNullish then
        (.error typeErrorMsg, [⟨model, .obj [("text", x)]⟩])
      else
        match embedLoop ai model rest (i + 1) with
        | (.error e, calls) => (.error e, ⟨model, .obj [("text", x)]⟩ :: calls)
        | (.ok entries, calls) =>
          (.ok (embedEntry (normalizeEmbedding r) i :: entries),
           ⟨model, .obj [("text", x)]⟩ :: calls)

/-- The embedding response body built on success. -/
def embedSuccessBody (model : JSValue) (entries : List JSValue) : JSValue :=
  .obj [("object", .str "list"),
        ("data", .arr entries),
        ("model", model),
        ("usage", .obj [("prompt_tokens", .num 0), ("total_tokens", .num 0)])]

/-- `handleEmbeddings`, with the same conventions as
`handleChatCompletions`. -/
def handleEmbeddings (ai : Backend) (req : Request) :
    Except String Response × List AICall :=
  if req.method ≠ "POST" then
    (.ok (jsonResponse 405 (.obj [("error", .str "Method not allowed")])), [])
  else
    match req.body with
    | .error e => (.error e, [])
    | .ok body =>
      if body.isNullish then
        (.error typeErrorMsg, [])
      else
        let input := body.prop "input"
        let model := body.propOr "model" embedDefaultModel
        if !input.truthy then
          (.ok (jsonResponse 400 (.obj [("error", .str "Input is required")])), [])
        else
          match embedLoop ai model (normalizeInput input) 0 with
          | (.error e, calls) =>
            (.ok (jsonResponse 500 (handlerErrorBody "Failed to generate embeddings" e)),
             calls)
          | (.ok entries, calls) =>
            (.ok (jsonResponse 200 (embedSuccessBody model entries)), calls)

/-- One of the five hardcoded catalog entries. -/
def modelDescriptor (id : String) : JSValue :=
  .obj [("id", .str id),
        ("object", .str "model"),
        ("created", .num 1677610602),
        ("owned_by", .str "cloudflare")]

/-- The fixed model catalog body. -/
def modelsBody : JSValue :=
  .obj [("object", .str "list"),
        ("data", .arr
          [modelDescriptor "@cf/meta/llama-3.3-70b-instruct-fp8-fast",
           modelDescriptor "@cf/meta/llama-3.1-70b-instruct",
           modelDescriptor "@cf/meta/llama-3-8b-instruct",
           modelDescriptor "@cf/baai/bge-large-en-v1.5",
           modelDescriptor "@cf/baai/bge-base-en-v1.5"])]

/-- `handleModels`: a constant response (the `corsHeaders` argument of
the source is the fixed constant above). -/
def handleModels : Response := jsonResponse 200 modelsBody

/-- The root-path informational document. -/
def rootBody : JSValue :=
  .obj [("message", .str "OpenAI-compatible Workers AI API"),
        ("endpoints", .obj
          [("chat", .str "/v1/chat/completions"),
           ("embeddings", .str "/v1/embeddings"),
           ("models", .str "/v1/models")]),
        ("documentation",
         .str "https://developers.cloudflare.com/workers-ai/configuration/open-ai-compatibility/")]

/-- The 500 envelope of the dispatcher's outermost catch. -/
def internalErrorResponse (msg : String) : Response :=
  jsonResponse 500 (.obj [("error", .str "Internal server error"), ("message", .str msg)])

/-- The worker's `fetch` entry point: pre-flight short-circuit, path
routing, and the outermost catch that turns an escaped exception into
a generic 500 envelope. -/
def workerFetch (ai : Backend) (now : Nat) (req : Request) : Response × List AICall :=
  if req.method = "OPTIONS" then
    ({ status := 200, headers := corsHeaders, body := none }, [])
  else if req.path = "/" then
    (jsonResponse 200 rootBody, [])
  else if req.path = "/v1/models" then
    (handleModels, [])
  else if req.path = "/v1/chat/completions" then
    match handleChatCompletions ai now req with
    | (.ok resp, calls) => (resp, calls)
    | (.error e, calls) => (internalErrorResponse e, calls)
  else if req.path = "/v1/embeddings" then
    match handleEmbeddings ai req with
    | (.ok resp, calls) => (resp, calls)
    | (.error e, calls) => (internalErrorResponse e, calls)
  else
    (jsonResponse 404 (.obj [("error", .str "Not found")]), [])

/-- `choices[0].message.content` of a response body. -/
def chatContent (resp : Response) : JSValue :=
  match resp.body with
  | some b => (((b.prop "choices").index 0).prop "message").prop "content"
  | none => .undefined

/-- `choices[0].finish_reason` of a response body. -/
def chatFinishReason (resp : Response) : JSValue :=
  match resp.body with
  | some b => ((b.prop "choices").index 0).prop "finish_reason"
  | none => .undefined

/-- A usage field of a response body. -/
def usageField (resp : Response) (k : String) : JSValue :=
  match resp.body with
  | some b => (b.prop "usage").prop k
  | none => .undefined

/-- The `data` field of a response body. -/
def embedData (resp : Response) : JSValue :=
  match resp.body with
  | some b => b.prop "data"
  | none => .undefined

/-- Whether a response carries all three CORS headers. -/
def hasCorsHeaders (resp : Response) : Bool :=
  corsHeaders.all (fun h => resp.headers.contains h)

/- Concrete fixtures used by closed counterexamples and witnesses. -/

/-- A backend that rejects every call; a trace of `[]` together with
this backend witnesses that the backend is never reached. -/
def unreachedBackend : Backend := fun _ _ => .error "backend reached"

/-- A backend that resolves every call with `{ response: "pong" }`. -/
def pongBackend : Backend := fun _ _ => .ok (.obj [("response", .str "pong")])

/-- A backend that resolves every call with `{ response: "" }`: a
wrapped object whose reply-text field is falsy. -/
def emptyReplyBackend : Backend := fun _ _ => .ok (.obj [("response", .str "")])

/-- A backend that resolves every call with `{ data: [1] }`. -/
def vecBackend : Backend := fun _ _ => .ok (.obj [("data", .arr [.num 1])])

/-- A GET request to the models path. -/
def modelsReq : Request :=
  { method := "GET", path := "/v1/models", body := .error "no body" }

/-- A GET request to the chat path. -/
def getChatReq : Request :=
  { method := "GET", path := "/v1/chat/completions", body := .error "no body" }

/-- A POST chat request whose body is not parseable JSON. -/
def badJsonChatReq : Request :=
  { method := "POST", path := "/v1/chat/completions",
    body := .error "Unexpected token in JSON" }

/-- A POST chat request whose body is the JSON literal `null`. -/
def nullBodyChatReq : Request :=
  { method := "POST", path := "/v1/chat/completions", body := .ok .null }

/-- A POST chat request with a one-message `messages` array. -/
def oneMsgChatReq : Request :=
  { method := "POST", path := "/v1/chat/completions",
    body := .ok (.obj [("messages",
      .arr [.obj [("role", .str "user"), ("content", .str "hi")]])]) }

/-- A POST embeddings request whose `input` is the empty array. -/
def emptyArrayInputReq : Request :=
  { method := "POST", path := "/v1/embeddings", body := .ok (.obj [("input", .arr [])]) }

/-- A POST request whose body is the empty object. -/
def emptyObjReq : Request :=
  { method := "POST", path := "/v1/embeddings", body := .ok (.obj []) }

/-- A POST embeddings request with a two-element `input` array. -/
def twoInputReq : Request :=
  { method := "POST", path := "/v1/embeddings",
    body := .ok (.obj [("input", .arr [.str "a", .str "b"])]) }

/-- An OPTIONS request to an unmatched path. -/
def optionsReq : Request :=
  { method := "OPTIONS", path := "/no/such/path", body := .error "no body" }

/- Helper lemmas. -/

/-- Every JSON response carries the three CORS headers. -/
theorem hasCors_jsonResponse (s : Nat) (b : JSValue) :
    hasCorsHeaders (jsonResponse s b) = true := rfl

/-- Reading `choices[0].message.content` back out of a successful chat
body returns the normalized reply it was built from. -/
theorem chatContent_success (now : Nat) (model content : JSValue) :
    chatContent (jsonResponse 200 (chatSuccessBody now model content)) = content := rfl

/-- `finish_reason` of a successful chat body is `"stop"`. -/
theorem chatFinishReason_success (now : Nat) (model content : JSValue) :
    chatFinishReason (jsonResponse 200 (chatSuccessBody now model content)) = .str "stop" := rfl

/-- `usage.prompt_tokens` of a successful chat body is 0. -/
theorem usage_prompt_success (now : Nat) (model content : JSValue) :
    usageField (jsonResponse 200 (chatSuccessBody now model content)) "prompt_tokens" =
      .num 0 := rfl

/-- `usage.completion_tokens` of a successful chat body is 0. -/
theorem usage_completion_success (now : Nat) (model content : JSValue) :
    usageField (jsonResponse 200 (chatSuccessBody now model content)) "completion_tokens" =
      .num 0 := rfl

/-- `usage.total_tokens` of a successful chat body is 0. -/
theorem usage_total_success (now : Nat) (model content : JSValue) :
    usageField (jsonResponse 200 (chatSuccessBody now model content)) "total_tokens" =
      .num 0 := rfl

/-- The `data` field of a successful embedding body is its entry list. -/
theorem embedData_success (model : JSValue) (entries : List JSValue) :
    embedData (jsonResponse 200 (embedSuccessBody model entries)) = .arr entries := rfl

/-- A value with a truthy property is not nullish. -/
theorem isNullish_false_of_prop_truthy {body : JSValue} {k : String}
    (h : (body.prop k).truthy = true) : body.isNullish = false := by
  cases body <;> simp [JSValue.prop, JSValue.truthy, JSValue.isNullish] at h ⊢

/-- A value with an array property is not nullish. -/
theorem isNullish_false_of_prop_isArray {body : JSValue} {k : String}
    (h : (body.prop k).isArray = true) : body.isNullish = false := by
  cases body <;> simp [JSValue.prop, JSValue.isArray, JSValue.isNullish] at h ⊢

/-- Behaviour of `handleChatCompletions` on a non-POST method. -/
theorem handleChat_notPost (ai : Backend) (now : Nat) (req : Request)
    (hm : req.method ≠ "POST") :
    handleChatCompletions ai now req =
      (.ok (jsonResponse 405 (.obj [("error", .str "Method not allowed")])), []) := by
  unfold handleChatCompletions
  rw [if_pos hm]

/-- Behaviour of `handleEmbeddings` on a non-POST method. -/
theorem handleEmbed_notPost (ai : Backend) (req : Request)
    (hm : req.method ≠ "POST") :
    handleEmbeddings ai req =
      (.ok (jsonResponse 405 (.obj [("error", .str "Method not allowed")])), []) := by
  unfold handleEmbeddings
  rw [if_pos hm]

/-- A rejected body parse escapes `handleChatCompletions` unhandled. -/
theorem handleChat_parseError (ai : Backend) (now : Nat) (req : Request) (e : String)
    (hm : req.method = "POST") (hb : req.body = .error e) :
    handleChatCompletions ai now req = (.error e, []) := by
  unfold handleChatCompletions
  rw [if_neg (by simp [hm]), hb]

/-- A rejected body parse escapes `handleEmbeddings` unhandled. -/
theorem handleEmbed_parseError (ai : Backend) (req : Request) (e : String)
    (hm : req.method = "POST") (hb : req.body = .error e) :
    handleEmbeddings ai req = (.error e, []) := by
  unfold handleEmbeddings
  rw [if_neg (by simp [hm]), hb]

/-- Destructuring a `null`/`undefined` body throws out of
`handleChatCompletions`. -/
theorem handleChat_nullishBody (ai : Backend) (now : Nat) (req : Request) (body : JSValue)
    (hm : req.method = "POST") (hb : req.body = .ok body)
    (hnn : body.isNullish = true) :
    handleChatCompletions ai now req = (.error typeErrorMsg, []) := by
  unfold handleChatCompletions
  rw [if_neg (by simp [hm]), hb]
  simp [hnn]

/-- Destructuring a `null`/`undefined` body throws out of
`handleEmbeddings`. -/
theorem handleEmbed_nullishBody (ai : Backend) (req : Request) (body : JSValue)
    (hm : req.method = "POST") (hb : req.body = .ok body)
    (hnn : body.isNullish = true) :
    handleEmbeddings ai req = (.error typeErrorMsg, []) := by
  unfold handleEmbeddings
  rw [if_neg (by simp [hm]), hb]
  simp [hnn]

/-- Missing or non-array `messages` produces the 400 response without
touching the backend. -/
theorem handleChat_invalidMessages (ai : Backend) (now : Nat) (req : Request) (body : JSValue)
    (hm : req.method = "POST") (hb : req.body = .ok body)
    (hnn : body.isNullish = false)
    (hmsg : (body.prop "messages").isArray = false) :
    handleChatCompletions ai now req =
      (.ok (jsonResponse 400 (.obj [("error", .str "Messages array is required")])), []) := by
  unfold handleChatCompletions
  rw [if_neg (by simp [hm]), hb]
  simp [hnn, hmsg]

/-- Falsy `input` produces the 400 response without touching the
backend. -/
theorem handleEmbed_invalidInput (ai : Backend) (req : Request) (body : JSValue)
    (hm : req.method = "POST") (hb : req.body = .ok body)
    (hnn : body.isNullish = false)
    (htr : (body.prop "input").truthy = false) :
    handleEmbeddings ai req =
      (.ok (jsonResponse 400 (.obj [("error", .str "Input is required")])), []) := by
  unfold handleEmbeddings
  rw [if_neg (by simp [hm]), hb]
  simp [hnn, htr]

/-- On a valid chat request, `handleChatCompletions` performs exactly
one backend call and translates its outcome. -/
theorem handleChat_run (ai : Backend) (now : Nat) (req : Request) (body : JSValue)
    (hm : req.method = "POST") (hb : req.body = .ok body)
    (harr : (body.prop "messages").isArray = true) :
    handleChatCompletions ai now req =
      match ai (body.propOr "model" chatDefaultModel) (chatOptions body) with
      | .error e =>
        (.ok (jsonResponse 500 (handlerErrorBody "Failed to generate completion" e)),
         [⟨body.propOr "model" chatDefaultModel, chatOptions body⟩])
      | .ok r =>
        if r.isNullish then
          (.ok (jsonResponse 500
             (handlerErrorBody "Failed to generate completion" typeErrorMsg)),
           [⟨body.propOr "model" chatDefaultModel, chatOptions body⟩])
        else
          (.ok (jsonResponse 200
             (chatSuccessBody now (body.propOr "model" chatDefaultModel) (normalizeReply r))),
           [⟨body.propOr "model" chatDefaultModel, chatOptions body⟩]) := by
  have hnn : body.isNullish = false := isNullish_false_of_prop_isArray harr
  have htr : (body.prop "messages").truthy = true := by
    cases h : body.prop "messages" <;>
      simp [h, JSValue.isArray, JSValue.truthy] at harr ⊢
  unfold handleChatCompletions
  rw [if_neg (by simp [hm]), hb]
  simp [hnn, harr, htr, normalizeReply]

/-- On a valid embeddings request, `handleEmbeddings` runs the
per-element loop and translates its outcome. -/
theorem handleEmbed_run (ai : Backend) (req : Request) (body : JSValue)
    (hm : req.method = "POST") (hb : req.body = .ok body)
    (htr : (body.prop "input").truthy = true) :
    handleEmbeddings ai req =
      match embedLoop ai (body.propOr "model" embedDefaultModel)
          (normalizeInput (body.prop "input")) 0 with
      | (.error e, calls) =>
        (.ok (jsonResponse 500 (handlerErrorBody "Failed to generate embeddings" e)), calls)
      | (.ok entries, calls) =>
        (.ok (jsonResponse 200
           (embedSuccessBody (body.propOr "model" embedDefaultModel) entries)), calls) := by
  have hnn : body.isNullish = false := isNullish_false_of_prop_truthy htr
  unfold handleEmbeddings
  rw [if_neg (by simp [hm]), hb]
  simp [hnn, htr]

/-- A successful loop produces one entry per input element, the i-th
carrying index `k + i`. -/
theorem embedLoop_ok_spec (ai : Backend) (model : JSValue) :
    ∀ (xs : List JSValue) (k : Nat) (entries : List JSValue) (calls : List AICall),
      embedLoop ai model xs k = (.ok entries, calls) →
      entries.length = xs.length ∧
      ∀ i : Fin entries.length,
        (entries.get i).prop "index" = .num (Int.ofNat (k + i.val)) := by
  intro xs
  induction xs with
  | nil =>
    intro k entries calls h
    simp [embedLoop] at h
    obtain ⟨h1, _⟩ := h
    subst h1
    exact ⟨rfl, fun i => i.elim0⟩
  | cons x rest ih =>
    intro k entries calls h
    unfold embedLoop at h
    cases hai : ai model (.obj [("text", x)]) with
    | error e => simp [hai] at h
    | ok r =>
      simp only [hai] at h
      by_cases hr : r.isNullish = true
      · simp [hr] at h
      · simp only [hr, if_neg, ite_false, Bool.false_eq_true] at h
        cases hrec : embedLoop ai model rest (k + 1) with
        | mk res calls' =>
          cases res with
          | error e =>
            rw [hrec] at h
            simp at h
          | ok entries' =>
            rw [hrec] at h
            simp at h
            obtain ⟨h1, h2⟩ := h
            subst h1
            obtain ⟨ihlen, ihidx⟩ := ih (k + 1) entries' calls' hrec
            refine ⟨by simp [ihlen], ?_⟩
            intro i
            match i with
            | ⟨0, _⟩ => simp [List.get, embedEntry, JSValue.prop, lookupField]
            | ⟨j + 1, hj⟩ =>
              have hj' : j < entries'.length := by
                simpa using hj
              have h2 := ihidx ⟨j, hj'⟩
              simp [List.get] at h2 ⊢
              convert h2 using 2
              omega

/-- If the backend rejects the call for some element of the input, the
loop rejects. -/
theorem embedLoop_fails (ai : Backend) (model : JSValue) :
    ∀ (xs : List JSValue) (k : Nat) (i : Nat) (hi : i < xs.length) (e : String),
      ai model (.obj [("text", xs.get ⟨i, hi⟩)]) = .error e →
      ∃ msg calls, embedLoop ai model xs k = (.error msg, calls) := by
  intro xs
  induction xs with
  | nil =>
    intro k i hi
    exact absurd hi (Nat.not_lt_zero i)
  | cons x rest ih =>
    intro k i hi e hfail
    unfold embedLoop
    cases hai : ai model (.obj [("text", x)]) with
    | error e0 => exact ⟨e0, _, rfl⟩
    | ok r =>
      simp only []
      by_cases hr : r.isNullish = true
      · simp only [hr, if_true, ite_true]
        exact ⟨typeErrorMsg, _, rfl⟩
      · simp only [hr, if_neg, ite_false, Bool.false_eq_true]
        cases i with
        | zero =>
          simp only [List.get] at hfail
          rw [hfail] at hai
          simp at hai
        | succ j =>
          have hj : j < rest.length := by simpa using hi
          obtain ⟨msg, calls, hrec⟩ := ih (k + 1) j hj e hfail
          rw [hrec]
          exact ⟨msg, _, rfl⟩

/-- Any ok response delivered by the chat handler carries the CORS
headers. -/
theorem handleChat_ok_cors (ai : Backend) (now : Nat) (req : Request) (resp : Response)
    (h : (handleChatCompletions ai now req).1 = .ok resp) :
    hasCorsHeaders resp = true := by
  unfold handleChatCompletions at h
  simp only [] at h
  repeat' split at h
  all_goals simp at h
  all_goals subst h
  all_goals exact hasCors_jsonResponse _ _

/-- Any ok response delivered by the embeddings handler carries the
CORS headers. -/
theorem handleEmbed_ok_cors (ai : Backend) (req : Request) (resp : Response)
    (h : (handleEmbeddings ai req).1 = .ok resp) :
    hasCorsHeaders resp = true := by
  unfold handleEmbeddings at h
  simp only [] at h
  repeat' split at h
  all_goals simp at h
  all_goals subst h
  all_goals exact hasCors_jsonResponse _ _

/-- Routing: a non-OPTIONS request to the chat path reaches the chat
handler, whose escaped exception becomes the generic 500 envelope. -/
theorem workerFetch_route_chat (ai : Backend) (now : Nat) (req : Request)
    (hm : req.method ≠ "OPTIONS") (hp : req.path = "/v1/chat/completions") :
    workerFetch ai now req =
      (match handleChatCompletions ai now req with
       | (.ok resp, calls) => (resp, calls)
       | (.error e, calls) => (internalErrorResponse e, calls)) := by
  unfold workerFetch
  rw [if_neg hm, hp]
  simp

/-- Routing: a non-OPTIONS request to the embeddings path reaches the
embeddings handler, whose escaped exception becomes the generic 500
envelope. -/
theorem workerFetch_route_embed (ai : Backend) (now : Nat) (req : Request)
    (hm : req.method ≠ "OPTIONS") (hp : req.path = "/v1/embeddings") :
    workerFetch ai now req =
      (match handleEmbeddings ai req with
       | (.ok resp, calls) => (resp, calls)
       | (.error e, calls) => (internalErrorResponse e, calls)) := by
  unfold workerFetch
  rw [if_neg hm, hp]
  simp

/-- Routing: a non-OPTIONS request to the models path yields the fixed
catalog with no backend call. -/
theorem workerFetch_route_models (ai : Backend) (now : Nat) (req : Request)
    (hm : req.method ≠ "OPTIONS") (hp : req.path = "/v1/models") :
    workerFetch ai now req = (handleModels, []) := by
  unfold workerFetch
  rw [if_neg hm, hp]
  simp

/-- Every response of the dispatcher carries the CORS headers. -/
theorem workerFetch_cors (ai : Backend) (now : Nat) (req : Request) :
    hasCorsHeaders (workerFetch ai now req).1 = true := by
  unfold workerFetch
  split
  · rfl
  split
  · exact hasCors_jsonResponse _ _
  split
  · rfl
  split
  · split
    next resp calls heq =>
      exact handleChat_ok_cors ai now req resp (by rw [heq])
    next e calls heq => exact hasCors_jsonResponse _ _
  split
  · split
    next resp calls heq =>
      exact handleEmbed_ok_cors ai req resp (by rw [heq])
    next e calls heq => exact hasCors_jsonResponse _ _
  · exact hasCors_jsonResponse _ _

/-- C6: a GET to the models path always returns the same fixed catalog
response — independent of the backend, the clock, and (the embedding
being stateless) of any prior request — with no backend call; the
catalog body is a list envelope whose `data` has exactly five
descriptors. -/
theorem C6_models_fixed_catalog (ai : Backend) (now : Nat) (req : Request)
    (hm : req.method = "GET") (hp : req.path = "/v1/models") :
    workerFetch ai now req = (handleModels, []) ∧
    handleModels = jsonResponse 200 modelsBody ∧
    modelsBody.prop "object" = .str "list" ∧
    ∃ ds : List JSValue, modelsBody.prop "data" = .arr ds ∧ ds.length = 5 := by
  refine ⟨?_, rfl, rfl, ⟨_, rfl, rfl⟩⟩
  exact workerFetch_route_models ai now req (by rw [hm]; decide) hp

/-- Witness for C6 at a concrete GET request. -/
theorem C6_models_fixed_catalog_witness :
    workerFetch unreachedBackend 0 modelsReq = (handleModels, []) ∧
    handleModels = jsonResponse 200 modelsBody ∧
    modelsBody.prop "object" = .str "list" ∧
    ∃ ds : List JSValue, modelsBody.prop "data" = .arr ds ∧ ds.length = 5 :=
  C6_models_fixed_catalog unreachedBackend 0 modelsReq rfl rfl

/-- C7: every dispatcher response, and every response a handler
delivers, carries the three CORS headers; an OPTIONS request to any
path short-circuits into a 200 response with empty body and exactly
the CORS headers, with no backend call. -/
theorem C7_cors_everywhere (ai : Backend) (now : Nat) (req : Request) :
    hasCorsHeaders (workerFetch ai now req).1 = true ∧
    (∀ resp : Response, (handleChatCompletions ai now req).1 = .ok resp →
      hasCorsHeaders resp = true) ∧
    (∀ resp : Response, (handleEmbeddings ai req).1 = .ok resp →
      hasCorsHeaders resp = true) ∧
    hasCorsHeaders handleModels = true ∧
    (req.method = "OPTIONS" →
      workerFetch ai now req =
        ({ status := 200, headers := corsHeaders, body := none }, [])) := by
  refine ⟨workerFetch_cors ai now req,
          fun resp h => handleChat_ok_cors ai now req resp h,
          fun resp h => handleEmbed_ok_cors ai req resp h,
          rfl, ?_⟩
  intro hOpt
  unfold workerFetch
  rw [if_pos hOpt]

/-- Witness for C7 at a concrete OPTIONS request to an unmatched
path. -/
theorem C7_cors_everywhere_witness :
    hasCorsHeaders (workerFetch unreachedBackend 0 optionsReq).1 = true ∧
    workerFetch unreachedBackend 0 optionsReq =
      ({ status := 200, headers := corsHeaders, body := none }, []) := by
  obtain ⟨h1, _, _, _, h5⟩ := C7_cors_everywhere unreachedBackend 0 optionsReq
  exact ⟨h1, h5 rfl⟩

/-- C8: a non-POST request to either POST-only handler gets the 405
envelope and produces no backend call. -/
theorem C8_non_post_405 (ai : Backend) (now : Nat) (req : Request)
    (hm : req.method ≠ "POST") :
    handleChatCompletions ai now req =
      (.ok (jsonResponse 405 (.obj [("error", .str "Method not allowed")])), []) ∧
    handleEmbeddings ai req =
      (.ok (jsonResponse 405 (.obj [("error", .str "Method not allowed")])), []) :=
  ⟨handleChat_notPost ai now req hm, handleEmbed_notPost ai req hm⟩

/-- Witness for C8 at a concrete GET request. -/
theorem C8_non_post_405_witness :
    handleChatCompletions unreachedBackend 0 getChatReq =
      (.ok (jsonResponse 405 (.obj [("error", .str "Method not allowed")])), []) ∧
    handleEmbeddings unreachedBackend getChatReq =
      (.ok (jsonResponse 405 (.obj [("error", .str "Method not allowed")])), []) :=
  C8_non_post_405 unreachedBackend 0 getChatReq (by decide)

/-- C9: a POST to the chat or embeddings path whose body is not
parseable JSON escapes both handlers unhandled, and the dispatcher's
outermost catch produces the generic 500 internal-error envelope (not
a 400), with no backend call. -/
theorem C9_unparseable_body_500 (ai : Backend) (now : Nat) (req : Request) (e : String)
    (hm : req.method = "POST") (hb : req.body = .error e)
    (hp : req.path = "/v1/chat/completions" ∨ req.path = "/v1/embeddings") :
    (handleChatCompletions ai now req).1 = .error e ∧
    (handleEmbeddings ai req).1 = .error e ∧
    workerFetch ai now req = (internalErrorResponse e, []) ∧
    (internalErrorResponse e).status = 500 ∧
    (internalErrorResponse e).body =
      some (.obj [("error", .str "Internal server error"), ("message", .str e)]) := by
  have hc := handleChat_parseError ai now req e hm hb
  have he := handleEmbed_parseError ai req e hm hb
  have hmo : req.method ≠ "OPTIONS" := by rw [hm]; decide
  refine ⟨by rw [hc], by rw [he], ?_, rfl, rfl⟩
  rcases hp with hp | hp
  · rw [workerFetch_route_chat ai now req hmo hp, hc]
  · rw [workerFetch_route_embed ai now req hmo hp, he]

/-- Witness for C9 at a concrete unparseable-body POST. -/
theorem C9_unparseable_body_500_witness :
    (handleChatCompletions unreachedBackend 0 badJsonChatReq).1 =
      .error "Unexpected token in JSON" ∧
    (handleEmbeddings unreachedBackend badJsonChatReq).1 =
      .error "Unexpected token in JSON" ∧
    workerFetch unreachedBackend 0 badJsonChatReq =
      (internalErrorResponse "Unexpected token in JSON", []) ∧
    (internalErrorResponse "Unexpected token in JSON").status = 500 ∧
    (internalErrorResponse "Unexpected token in JSON").body =
      some (.obj [("error", .str "Internal server error"),
                  ("message", .str "Unexpected token in JSON")]) :=
  C9_unparseable_body_500 unreachedBackend 0 badJsonChatReq "Unexpected token in JSON"
    rfl rfl (Or.inl rfl)

/-- C10: a POST embedding request whose `input` is the empty array
passes validation (the empty array is truthy), performs zero backend
calls, and succeeds with an empty `data` sequence. -/
theorem C10_empty_array_success (ai : Backend) (req : Request) (body : JSValue)
    (hm : req.method = "POST") (hb : req.body = .ok body)
    (hin : body.prop "input" = .arr []) :
    handleEmbeddings ai req =
      (.ok (jsonResponse 200
        (embedSuccessBody (body.propOr "model" embedDefaultModel) [])), []) ∧
    embedData (jsonResponse 200
      (embedSuccessBody (body.propOr "model" embedDefaultModel) [])) = .arr [] := by
  have htr : (body.prop "input").truthy = true := by rw [hin]; rfl
  refine ⟨?_, embedData_success _ _⟩
  rw [handleEmbed_run ai req body hm hb htr, hin]
  simp [normalizeInput, embedLoop]

/-- Witness for C10 at a concrete empty-array request. -/
theorem C10_empty_array_success_witness :
    handleEmbeddings unreachedBackend emptyArrayInputReq =
      (.ok (jsonResponse 200 (embedSuccessBody embedDefaultModel [])), []) ∧
    embedData (jsonResponse 200 (embedSuccessBody embedDefaultModel [])) = .arr [] :=
  C10_empty_array_success unreachedBackend emptyArrayInputReq
    (.obj [("input", .arr [])]) rfl rfl rfl

/-- C3 counterexample: the claim says an empty-sequence `input` is
rejected with a 400, but `![]` is `false` in JavaScript, so the empty
array passes the `!input` validation: the handler answers 200 (with no
backend call), not 400. -/
theorem C3_counterexample :
    (handleEmbeddings unreachedBackend emptyArrayInputReq).1.map Response.status =
      .ok 200 ∧
    (200 : Nat) ≠ 400 ∧
    (handleEmbeddings unreachedBackend emptyArrayInputReq).2 = [] :=
  ⟨rfl, by decide, rfl⟩

/-- C3 amended: a POST embedding request whose (non-nullish parsed)
body has `input` absent, `null`, or the empty string is answered with
the 400 envelope and the backend is never invoked; an empty array
instead passes validation. -/
theorem C3_falsy_input_400 (ai : Backend) (req : Request) (body : JSValue)
    (hm : req.method = "POST") (hb : req.body = .ok body)
    (hnn : body.isNullish = false)
    (hin : body.prop "input" = .undefined ∨ body.prop "input" = .null ∨
           body.prop "input" = .str "") :
    handleEmbeddings ai req =
      (.ok (jsonResponse 400 (.obj [("error", .str "Input is required")])), []) := by
  have htr : (body.prop "input").truthy = false := by
    rcases hin with h | h | h <;> rw [h] <;> rfl
  exact handleEmbed_invalidInput ai req body hm hb hnn htr

/-- Witness for the amended C3 at a concrete input-less request. -/
theorem C3_falsy_input_400_witness :
    handleEmbeddings unreachedBackend emptyObjReq =
      (.ok (jsonResponse 400 (.obj [("error", .str "Input is required")])), []) :=
  C3_falsy_input_400 unreachedBackend emptyObjReq (.obj []) rfl rfl rfl (Or.inl rfl)

/-- C4 counterexample: the claim says a chat body lacking `messages`
gets a 400, but the JSON body `null` has no `messages` field and
destructuring it throws, so the dispatcher answers with the generic
500 envelope instead of a 400 (the backend is still never invoked). -/
theorem C4_counterexample :
    (workerFetch unreachedBackend 0 nullBodyChatReq).1.status = 500 ∧
    (500 : Nat) ≠ 400 ∧
    (workerFetch unreachedBackend 0 nullBodyChatReq).2 = [] :=
  ⟨rfl, by decide, rfl⟩

/-- C4 amended: for a POST whose body parses to a non-nullish value,
a chat request whose `messages` is not an array (in particular
absent) gets the 400 envelope, and an embedding request whose `input`
is absent gets the 400 envelope, in both cases with no backend call;
a body parsing to `null` instead escapes as an internal error. -/
theorem C4_missing_fields_400 (ai : Backend) (now : Nat) (req : Request) (body : JSValue)
    (hm : req.method = "POST") (hb : req.body = .ok body)
    (hnn : body.isNullish = false) :
    ((body.prop "messages").isArray = false →
      handleChatCompletions ai now req =
        (.ok (jsonResponse 400 (.obj [("error", .str "Messages array is required")])), [])) ∧
    (body.prop "input" = .undefined →
      handleEmbeddings ai req =
        (.ok (jsonResponse 400 (.obj [("error", .str "Input is required")])), [])) := by
  constructor
  · intro hmsg
    exact handleChat_invalidMessages ai now req body hm hb hnn hmsg
  · intro hinp
    exact handleEmbed_invalidInput ai req body hm hb hnn (by rw [hinp]; rfl)

/-- Witness for the amended C4 at a concrete empty-object body. -/
theorem C4_missing_fields_400_witness :
    handleChatCompletions unreachedBackend 0
        { method := "POST", path := "/v1/chat/completions", body := .ok (.obj []) } =
      (.ok (jsonResponse 400 (.obj [("error", .str "Messages array is required")])), []) ∧
    handleEmbeddings unreachedBackend emptyObjReq =
      (.ok (jsonResponse 400 (.obj [("error", .str "Input is required")])), []) := by
  obtain ⟨h1, h2⟩ := C4_missing_fields_400 unreachedBackend 0
    { method := "POST", path := "/v1/chat/completions", body := .ok (.obj []) }
    (.obj []) rfl rfl rfl
  obtain ⟨_, h4⟩ := C4_missing_fields_400 unreachedBackend 0 emptyObjReq
    (.obj []) rfl rfl rfl
  exact ⟨h1 rfl, h4 rfl⟩

/-- C1 amended: for a POST chat request with an array `messages`, when
the backend resolves with a non-nullish `r` the handler answers 200
with `choices[0].message.content` equal to `r`'s `response` field when
that field is truthy and to the raw `r` otherwise (`normalizeReply`),
`finish_reason` `"stop"`, and all usage counts 0. -/
theorem C1_chat_reply_normalization (ai : Backend) (now : Nat) (req : Request)
    (body r : JSValue)
    (hm : req.method = "POST") (hb : req.body = .ok body)
    (harr : (body.prop "messages").isArray = true)
    (hai : ai (body.propOr "model" chatDefaultModel) (chatOptions body) = .ok r)
    (hr : r.isNullish = false) :
    ∃ resp : Response,
      (handleChatCompletions ai now req).1 = .ok resp ∧
      resp.status = 200 ∧
      chatContent resp = normalizeReply r ∧
      chatFinishReason resp = .str "stop" ∧
      usageField resp "prompt_tokens" = .num 0 ∧
      usageField resp "completion_tokens" = .num 0 ∧
      usageField resp "total_tokens" = .num 0 := by
  refine ⟨jsonResponse 200 (chatSuccessBody now (body.propOr "model" chatDefaultModel)
      (normalizeReply r)), ?_, rfl, chatContent_success _ _ _,
    chatFinishReason_success _ _ _, usage_prompt_success _ _ _,
    usage_completion_success _ _ _, usage_total_success _ _ _⟩
  rw [handleChat_run ai now req body hm hb harr, hai]
  simp [hr]

/-- Witness for the amended C1 at a concrete request and a backend
answering `{ response: "pong" }`. -/
theorem C1_chat_reply_normalization_witness :
    ∃ resp : Response,
      (handleChatCompletions pongBackend 0 oneMsgChatReq).1 = .ok resp ∧
      resp.status = 200 ∧
      chatContent resp = normalizeReply (.obj [("response", .str "pong")]) ∧
      chatFinishReason resp = .str "stop" ∧
      usageField resp "prompt_tokens" = .num 0 ∧
      usageField resp "completion_tokens" = .num 0 ∧
      usageField resp "total_tokens" = .num 0 :=
  C1_chat_reply_normalization pongBackend 0 oneMsgChatReq
    (.obj [("messages", .arr [.obj [("role", .str "user"), ("content", .str "hi")]])])
    (.obj [("response", .str "pong")]) rfl rfl rfl rfl rfl

/-- C1 counterexample: with backend result `{ response: "" }` — an
object exposing a `response` field — the claim requires the reply text
`""`, but `response.response || response` falls through on the falsy
field, so the 200 response carries the raw object as content
instead. -/
theorem C1_counterexample :
    (handleChatCompletions emptyReplyBackend 0 oneMsgChatReq).1.map
        (fun resp => (resp.status, chatContent resp)) =
      .ok (200, .obj [("response", .str "")]) ∧
    JSValue.obj [("response", .str "")] ≠ .str "" :=
  ⟨rfl, fun h => JSValue.noConfusion h⟩

/-- C2: whenever the embeddings handler answers 200 for a POST with a
parsed body, `data` has exactly one entry per element of the
normalized input (a scalar input counting as one element) and the
i-th entry's `index` is `i`. -/
theorem C2_embed_data_indexed (ai : Backend) (req : Request) (body : JSValue)
    (resp : Response)
    (hm : req.method = "POST") (hb : req.body = .ok body)
    (hres : (handleEmbeddings ai req).1 = .ok resp)
    (hs : resp.status = 200) :
    ∃ entries : List JSValue,
      embedData resp = .arr entries ∧
      entries.length = (normalizeInput (body.prop "input")).length ∧
      ∀ i : Fin entries.length,
        (entries.get i).prop "index" = .num (Int.ofNat i.val) := by
  by_cases hnn : body.isNullish = true
  · rw [handleEmbed_nullishBody ai req body hm hb hnn] at hres
    exact absurd hres (by simp)
  · have hnn' : body.isNullish = false := by simpa using hnn
    by_cases htr : (body.prop "input").truthy = true
    · rw [handleEmbed_run ai req body hm hb htr] at hres
      cases hloop : embedLoop ai (body.propOr "model" embedDefaultModel)
          (normalizeInput (body.prop "input")) 0 with
      | mk res calls =>
        cases res with
        | error e =>
          rw [hloop] at hres
          simp at hres
          subst hres
          simp [jsonResponse] at hs
        | ok entries =>
          rw [hloop] at hres
          simp at hres
          subst hres
          obtain ⟨hlen, hidx⟩ := embedLoop_ok_spec ai _ _ _ _ _ hloop
          refine ⟨entries, embedData_success _ _, hlen, ?_⟩
          intro i
          simpa using hidx i
    · have htr' : (body.prop "input").truthy = false := by simpa using htr
      rw [handleEmbed_invalidInput ai req body hm hb hnn' htr'] at hres
      simp at hres
      subst hres
      simp [jsonResponse] at hs

/-- Witness for C2 at a concrete two-element batch and a backend
answering `{ data: [1] }`. -/
theorem C2_embed_data_indexed_witness :
    ∃ entries : List JSValue,
      embedData (jsonResponse 200 (embedSuccessBody embedDefaultModel
        [embedEntry (.arr [.num 1]) 0, embedEntry (.arr [.num 1]) 1])) = .arr entries ∧
      entries.length =
        (normalizeInput ((JSValue.obj
          [("input", .arr [.str "a", .str "b"])]).prop "input")).length ∧
      ∀ i : Fin entries.length,
        (entries.get i).prop "index" = .num (Int.ofNat i.val) :=
  C2_embed_data_indexed vecBackend twoInputReq
    (.obj [("input", .arr [.str "a", .str "b"])])
    (jsonResponse 200 (embedSuccessBody embedDefaultModel
      [embedEntry (.arr [.num 1]) 0, embedEntry (.arr [.num 1]) 1]))
    rfl rfl rfl rfl

/-- C5: if the backend rejects the call for any element of a batched
embedding input, the whole request is answered with a 500 envelope
whose `error` field is set and whose body has no `data` field — no
incomplete result list is returned to the caller. -/
theorem C5_batch_abort_on_failure (ai : Backend) (req : Request) (body : JSValue)
    (i : Nat) (e : String)
    (hm : req.method = "POST") (hb : req.body = .ok body)
    (htr : (body.prop "input").truthy = true)
    (hi : i < (normalizeInput (body.prop "input")).length)
    (hfail : ai (body.propOr "model" embedDefaultModel)
        (.obj [("text", (normalizeInput (body.prop "input")).get ⟨i, hi⟩)]) = .error e) :
    ∃ (resp : Response) (msg : String),
      (handleEmbeddings ai req).1 = .ok resp ∧
      resp.status = 500 ∧
      resp.body = some (handlerErrorBody "Failed to generate embeddings" msg) ∧
      (handlerErrorBody "Failed to generate embeddings" msg).prop "error" =
        .str "Failed to generate embeddings" ∧
      (handlerErrorBody "Failed to generate embeddings" msg).prop "data" = .undefined := by
  obtain ⟨msg, calls, hloop⟩ := embedLoop_fails ai (body.propOr "model" embedDefaultModel)
    (normalizeInput (body.prop "input")) 0 i hi e hfail
  refine ⟨jsonResponse 500 (handlerErrorBody "Failed to generate embeddings" msg), msg,
    ?_, rfl, rfl, rfl, rfl⟩
  rw [handleEmbed_run ai req body hm hb htr, hloop]

/-- Witness for C5 at a concrete two-element batch against a backend
that rejects every call. -/
theorem C5_batch_abort_on_failure_witness :
    ∃ (resp : Response) (msg : String),
      (handleEmbeddings unreachedBackend twoInputReq).1 = .ok resp ∧
      resp.status = 500 ∧
      resp.body = some (handlerErrorBody "Failed to generate embeddings" msg) ∧
      (handlerErrorBody "Failed to generate embeddings" msg).prop "error" =
        .str "Failed to generate embeddings" ∧
      (handlerErrorBody "Failed to generate embeddings" msg).prop "data" = .undefined :=
  C5_batch_abort_on_failure unreachedBackend twoInputReq
    (.obj [("input", .arr [.str "a", .str "b"])]) 0 "backend reached"
    rfl rfl rfl (by decide) rfl
